import Mathlib

/-!
Shallow embedding of `homework.py` / `exceptions.py` (a Telegram homework
status bot) and proofs about its poll-evaluate-notify loop.

Python values that flow through the program are modelled by `PyVal`,
Python exceptions by `PyError`, and the observable actions of a cycle
(HTTP calls, log lines, Telegram send attempts, sleeps) by `Event`.
External effects (the HTTP request outcome, the Telegram send outcome)
are inputs to each cycle, packaged in `CycleEnv`.
-/

namespace HomeworkBot

/-- A Python value as it appears in this program: `None`, strings,
integers, lists and string-keyed dicts (decoded JSON). -/
inductive PyVal : Type where
  | none : PyVal
  | str (s : String) : PyVal
  | int (n : Int) : PyVal
  | list (xs : List PyVal) : PyVal
  | dict (entries : List (String × PyVal)) : PyVal

/-- `type(v).__name__`. CPython renders `{type(response)}` as
`<class ...>` with quotes around the name; the wrapper is elided here,
the actual type is still named. -/
def typeName : PyVal → String
  | .none => "NoneType"
  | .str _ => "str"
  | .int _ => "int"
  | .list _ => "list"
  | .dict _ => "dict"

/-- `str(v)` for the values this program interpolates into messages.
The program only ever interpolates strings (and exceptions, handled by
`pyErrStr`); container rendering is approximated since no message in the
program contains one. -/
def pyStr : PyVal → String
  | .none => "None"
  | .str s => s
  | .int n => toString n
  | .list _ => "<list>"
  | .dict _ => "<dict>"

/-- Is this value Python `None`? (`v is None`). -/
def PyVal.isNone : PyVal → Bool
  | .none => true
  | _ => false

/-- `isinstance(v, dict)`. -/
def PyVal.isDict : PyVal → Bool
  | .dict _ => true
  | _ => false

/-- `isinstance(v, list)`. -/
def PyVal.isList : PyVal → Bool
  | .list _ => true
  | _ => false

/-- The exceptions this program can raise: the three classes of
`exceptions.py`, the built-in `TypeError` and `IndexError` and
`AttributeError`, and the `UnboundLocalError` produced by reading a
local variable that was never assigned. -/
inductive PyError : Type where
  | typeError (msg : String) : PyError
  | responseError (msg : String) : PyError
  | messageSendingError (msg : String) : PyError
  | missingTokenError (msg : String) : PyError
  | indexError (msg : String) : PyError
  | attributeError (msg : String) : PyError
  | unboundLocalError (var : String) : PyError
deriving DecidableEq

/-- `str(e)` of an exception: its message. For `UnboundLocalError` the
CPython text (quotes around the variable name elided). -/
def pyErrStr : PyError → String
  | .typeError m => m
  | .responseError m => m
  | .messageSendingError m => m
  | .missingTokenError m => m
  | .indexError m => m
  | .attributeError m => m
  | .unboundLocalError v =>
      "cannot access local variable " ++ v ++
        " where it is not associated with a value"

/-- First match of a key in a dict's entry list. -/
def dictLookup : List (String × PyVal) → String → Option PyVal
  | [], _ => Option.none
  | (k, v) :: rest, key => if k = key then some v else dictLookup rest key

/-- `d.get(key)`: `None` when the key is absent; `AttributeError` when
the receiver is not a dict. -/
def pyGetMethod : PyVal → String → Except PyError PyVal
  | .dict entries, key =>
      match dictLookup entries key with
      | some v => .ok v
      | Option.none => .ok .none
  | v, _ =>
      .error (.attributeError (typeName v ++ " object has no attribute get"))

/-- `v[i]` for a non-negative literal index: `TypeError` when the
receiver is not a list, `IndexError` when the index is out of range. -/
def pyIndex : PyVal → Nat → Except PyError PyVal
  | .list xs, i =>
      match xs.get? i with
      | some v => .ok v
      | Option.none => .error (.indexError "list index out of range")
  | v, _ =>
      .error (.typeError (typeName v ++ " object is not subscriptable"))

/-- Log severities the program uses. -/
inductive LogLevel : Type where
  | debug : LogLevel
  | error : LogLevel
  | critical : LogLevel
deriving DecidableEq

/-- Observable actions of the program: an HTTP GET to the API carrying
the `from_date` timestamp, a log line, a `bot.send_message` attempt with
its text, and a `time.sleep` with its duration. -/
inductive Event : Type where
  | apiCall (timestamp : Int) : Event
  | log (lvl : LogLevel) (msg : String) : Event
  | sendAttempt (message : String) : Event
  | sleep (seconds : Nat) : Event
deriving DecidableEq

/-- Modelled from the spec: `settings.py` (imported by `homework.py` for
`ENDPOINT`, `HOMEWORK_VERDICTS`, `RETRY_PERIOD`) is not under `src/`.
The spec fixes a "fixed configured interval" between cycles; its value
is immaterial to every claim. -/
def RETRY_PERIOD : Nat := 600

/-- Modelled from the spec: `settings.py` is not under `src/`. The spec
describes `HOMEWORK_VERDICTS` as "a fixed mapping table" from status
codes to localized verdict texts and names the statuses `approved` and
`reviewing` (and `unknown_code` as absent); the exact verdict wording is
"a product detail". -/
def HOMEWORK_VERDICTS : List (String × String) :=
  [("approved", "Работа проверена: ревьюеру всё понравилось. Ура!"),
   ("reviewing", "Работа взята на проверку ревьюером."),
   ("rejected", "Работа проверена: у ревьюера есть замечания.")]

/-- `HOMEWORK_VERDICTS.get(status)` where `status` is an arbitrary value
from the record: only string keys can match. -/
def verdictOf : PyVal → Option String
  | .str s => (HOMEWORK_VERDICTS.find? (fun p => p.1 = s)).map Prod.snd
  | _ => Option.none

/-- The three environment credentials read at module import. -/
structure Env : Type where
  PRACTICUM_TOKEN : Option String
  TELEGRAM_TOKEN : Option String
  TELEGRAM_CHAT_ID : Option String

/-- Python truthiness of an optional string: `None` and `""` are falsy. -/
def truthy : Option String → Bool
  | Option.none => false
  | some s => s != ""

/-- `check_tokens`: raises `MissingTokenError` unless all three
credentials are truthy (`if not all(tokens): raise`). -/
def check_tokens (env : Env) : Except PyError Unit :=
  if truthy env.PRACTICUM_TOKEN && truthy env.TELEGRAM_TOKEN
      && truthy env.TELEGRAM_CHAT_ID then
    .ok ()
  else
    .error (.missingTokenError "Ошибка получения токена")

/-- Outcome of one `bot.send_message` call, an input to the model: it
succeeds, or raises one of the exception classes `send_message`
distinguishes, carrying the exception's own text. -/
inductive SendOutcome : Type where
  | ok : SendOutcome
  | apiTelegramException (e : String) : SendOutcome
  | connectionError (e : String) : SendOutcome
  | timeout (e : String) : SendOutcome
  | otherException (e : String) : SendOutcome
deriving DecidableEq

/-- `send_message(bot, message)`: attempts the send, logs a debug line
on success, and wraps each failure kind in `MessageSendingError` — with
the original exception text for `ApiTelegramException` and the generic
`Exception` case, and a fixed text for `ConnectionError` and `Timeout`.
Returns the emitted events and the normal/raising outcome. -/
def send_message (outcome : SendOutcome) (message : String) :
    List Event × Except PyError Unit :=
  match outcome with
  | .ok =>
      ([.sendAttempt message,
        .log .debug ("Отправлено сообщение \"" ++ message ++ "\"")],
       .ok ())
  | .apiTelegramException e =>
      ([.sendAttempt message],
       .error (.messageSendingError ("Ошибка API Telegram: " ++ e)))
  | .connectionError _ =>
      ([.sendAttempt message],
       .error (.messageSendingError
         "Ошибка сети: проверьте подключение к интернету."))
  | .timeout _ =>
      ([.sendAttempt message],
       .error (.messageSendingError
         "Превышено время ожидания ответа от сервера."))
  | .otherException e =>
      ([.sendAttempt message],
       .error (.messageSendingError
         ("Произошла непредвиденная ошибка: " ++ e)))

/-- Outcome of one `requests.get` call, an input to the model: a raised
`requests.RequestException` with its text, or a completed response with
a status code and decoded JSON body. -/
inductive HttpOutcome : Type where
  | exn (e : String) : HttpOutcome
  | reply (status : Nat) (body : PyVal) : HttpOutcome

/-- `get_api_answer(timestamp)`: issues the GET with `from_date`. On a
`RequestException` it logs the error and falls through to
`response.status_code` with `response` unbound, raising
`UnboundLocalError`. On a non-200 status it raises `ResponseError`
naming the code; on 200 it returns `response.json()`. -/
def get_api_answer (timestamp : Int) (outcome : HttpOutcome) :
    List Event × Except PyError PyVal :=
  match outcome with
  | .exn e =>
      ([.apiCall timestamp,
        .log .error ("Ошибка отправки запроса: " ++ e)],
       .error (.unboundLocalError "response"))
  | .reply status body =>
      if status ≠ 200 then
        ([.apiCall timestamp],
         .error (.responseError
           ("Получен ответ со статусом " ++ toString status)))
      else
        ([.apiCall timestamp], .ok body)

/-- `check_response(response)`: type check, then `homeworks` presence,
then `current_date` presence, then `homeworks` list-type, then
`homeworks` non-emptiness — in exactly this order. -/
def check_response (response : PyVal) : Except PyError Unit :=
  match response with
  | .dict entries =>
      if ((dictLookup entries "homeworks").getD PyVal.none).isNone then
        .error (.responseError "В ответе от Yandex API нет записей о ДЗ")
      else if ((dictLookup entries "current_date").getD PyVal.none).isNone then
        .error (.responseError
          "В ответе от Yandex API нет записи о текущей дате")
      else
        match (dictLookup entries "homeworks").getD PyVal.none with
        | .list xs =>
            if xs.length < 1 then
              .error (.responseError
                "В ответе от Yandex API список с записями о ДЗ пуст")
            else
              .ok ()
        | _ =>
            .error (.typeError
              "В ответе от Yandex API записи о ДЗ не приведены к списку")
  | v =>
      .error (.typeError ("Ответ от Yandex API не словарь, а " ++ typeName v))

/-- `parse_status(homework)`: requires `homework_name` to be present and
non-`None`, requires `status` to map to a verdict in
`HOMEWORK_VERDICTS`, and renders the summary template. -/
def parse_status (homework : PyVal) : Except PyError String :=
  match pyGetMethod homework "homework_name" with
  | .error e => .error e
  | .ok homework_name =>
      if homework_name.isNone then
        .error (.responseError "В ответе API нет ключа homework_name")
      else
        match pyGetMethod homework "status" with
        | .error e => .error e
        | .ok homework_status =>
            match verdictOf homework_status with
            | Option.none =>
                .error (.responseError "Неожиданный статус домашней работы")
            | some verdict =>
                .ok ("Изменился статус проверки работы \"" ++
                  pyStr homework_name ++ "\". " ++ verdict)

/-- The mutable state of `main`'s loop: `timestamp` (the poll cursor,
set once from `int(time.time())`) and `last_status` (initialised to
`''`). -/
structure LoopState : Type where
  timestamp : Int
  last_status : String
deriving DecidableEq

/-- The external world of one cycle: what the HTTP request does, what a
primary (status) send would do, and what a diagnostic send in the
`except` handler would do. -/
structure CycleEnv : Type where
  api : HttpOutcome
  primarySend : SendOutcome
  diagSend : SendOutcome

/-- The `try` block of one loop iteration of `main`:
`get_api_answer`, `check_response`, `response.get('homeworks')[0]`,
`parse_status`, then either a primary send (status differs from
`last_status`) or the debug skip log. Returns the events emitted so far
and either the state after the block (note: nothing in the block ever
assigns `last_status` or `timestamp`) or the exception that escaped. -/
def cycle_body (env : CycleEnv) (st : LoopState) :
    List Event × Except PyError LoopState :=
  match (get_api_answer st.timestamp env.api).2 with
  | .error e => ((get_api_answer st.timestamp env.api).1, .error e)
  | .ok response =>
      match check_response response with
      | .error e => ((get_api_answer st.timestamp env.api).1, .error e)
      | .ok _ =>
          match pyGetMethod response "homeworks" with
          | .error e => ((get_api_answer st.timestamp env.api).1, .error e)
          | .ok hwval =>
              match pyIndex hwval 0 with
              | .error e => ((get_api_answer st.timestamp env.api).1, .error e)
              | .ok homework =>
                  match parse_status homework with
                  | .error e =>
                      ((get_api_answer st.timestamp env.api).1, .error e)
                  | .ok status =>
                      if status = st.last_status then
                        ((get_api_answer st.timestamp env.api).1 ++
                          [.log .debug
                            "Статус не изменился, сообщение не отправлено"],
                         .ok st)
                      else
                        match (send_message env.primarySend status).2 with
                        | .error e =>
                            ((get_api_answer st.timestamp env.api).1 ++
                              (send_message env.primarySend status).1,
                             .error e)
                        | .ok _ =>
                            ((get_api_answer st.timestamp env.api).1 ++
                              (send_message env.primarySend status).1,
                             .ok st)

/-- One full iteration of `main`'s `while True`: the `try` block, the
`except Exception` handler (log the diagnostic, send it through
`send_message` — unguarded, so its own failure escapes), and the
`finally: time.sleep(RETRY_PERIOD)`. `Except.error` in the result means
the iteration re-raised and the loop terminates. -/
def run_cycle (env : CycleEnv) (st : LoopState) :
    List Event × Except PyError LoopState :=
  match (cycle_body env st).2 with
  | .ok st1 => ((cycle_body env st).1 ++ [.sleep RETRY_PERIOD], .ok st1)
  | .error e =>
      match (send_message env.diagSend
          ("Сбой в работе программы: " ++ pyErrStr e)).2 with
      | .ok _ =>
          ((cycle_body env st).1 ++
            [.log .error ("Сбой в работе программы: " ++ pyErrStr e)] ++
            (send_message env.diagSend
              ("Сбой в работе программы: " ++ pyErrStr e)).1 ++
            [.sleep RETRY_PERIOD],
           .ok st)
      | .error e2 =>
          ((cycle_body env st).1 ++
            [.log .error ("Сбой в работе программы: " ++ pyErrStr e)] ++
            (send_message env.diagSend
              ("Сбой в работе программы: " ++ pyErrStr e)).1 ++
            [.sleep RETRY_PERIOD],
           .error e2)

/-- The StatusSummary the `try` block computes this cycle, when it gets
as far as a successful `parse_status`: the same chain of steps as
`cycle_body`, stopping before the send/skip decision. -/
def computed_summary (env : CycleEnv) (st : LoopState) : Option String :=
  match (get_api_answer st.timestamp env.api).2 with
  | .error _ => Option.none
  | .ok response =>
      match check_response response with
      | .error _ => Option.none
      | .ok _ =>
          match pyGetMethod response "homeworks" with
          | .error _ => Option.none
          | .ok hwval =>
              match pyIndex hwval 0 with
              | .error _ => Option.none
              | .ok homework =>
                  match parse_status homework with
                  | .error _ => Option.none
                  | .ok status => some status

/-- What `main` does before its loop. -/
inductive MainStart : Type where
  | exited (code : Nat) (events : List Event) : MainStart
  | loopEntered (st : LoopState) : MainStart
deriving DecidableEq

/-- The prologue of `main`: `check_tokens()` under `try/except` — on
`MissingTokenError` log critical and `sys.exit(1)`; otherwise build the
bot and enter the loop with `timestamp = int(time.time())` (`now`) and
`last_status = ''`. -/
def main_start (env : Env) (now : Int) : MainStart :=
  match check_tokens env with
  | .error _ =>
      .exited 1 [.log .critical "Отсутствует обязательный токен"]
  | .ok _ => .loopEntered { timestamp := now, last_status := "" }

/-- Runs the loop for one `CycleEnv` per cycle; stops early (returning
the escaped exception) if a cycle re-raises. -/
def run_loop : List CycleEnv → LoopState → List Event × Option PyError
  | [], _ => ([], Option.none)
  | env :: rest, st =>
      match (run_cycle env st).2 with
      | .ok st1 =>
          ((run_cycle env st).1 ++ (run_loop rest st1).1,
           (run_loop rest st1).2)
      | .error e => ((run_cycle env st).1, some e)

/-! Concrete fixtures used by witnesses and counterexamples. -/

/-- A well-formed API body: one homework named `X` with status
`approved`, and a `current_date`. -/
def goodBody : PyVal :=
  .dict [("homeworks",
            .list [.dict [("homework_name", .str "X"),
                          ("status", .str "approved")]]),
         ("current_date", .int 1)]

/-- The summary `parse_status` renders for `goodBody`'s homework. -/
def summaryX : String :=
  "Изменился статус проверки работы \"X\". " ++
    "Работа проверена: ревьюеру всё понравилось. Ура!"

/-- Initial loop state with cursor 0. -/
def st0 : LoopState := { timestamp := 0, last_status := "" }

/-- A cycle in which everything succeeds. -/
def envOk : CycleEnv :=
  { api := .reply 200 goodBody, primarySend := .ok, diagSend := .ok }

/-- A cycle whose response lacks `homeworks` and whose diagnostic send
then fails with a connection error. -/
def envDiagFail : CycleEnv :=
  { api := .reply 200 (.dict [("current_date", .int 1)]),
    primarySend := .ok,
    diagSend := .connectionError "boom" }

/-- A cycle whose HTTP request raises and whose diagnostic send then
times out. -/
def envCrash : CycleEnv :=
  { api := .exn "boom", primarySend := .ok, diagSend := .timeout "t" }

/-- A cycle that computes a summary but whose primary send fails. -/
def envSendFail : CycleEnv :=
  { api := .reply 200 goodBody,
    primarySend := .apiTelegramException "chat not found",
    diagSend := .ok }

/-- All three credentials present and non-empty. -/
def fullEnv : Env :=
  { PRACTICUM_TOKEN := some "p", TELEGRAM_TOKEN := some "t",
    TELEGRAM_CHAT_ID := some "c" }

/-- A credential set with an empty messaging token. -/
def noTokenEnv : Env :=
  { PRACTICUM_TOKEN := some "p", TELEGRAM_TOKEN := some "",
    TELEGRAM_CHAT_ID := some "c" }

/-! Helper lemmas. -/

/-- Appending on the right keeps the first character. -/
lemma head_data_append (a m : String) (c : Char)
    (h : a.data.head? = some c) : (a ++ m).data.head? = some c := by
  rw [String.data_append]
  cases ha : a.data with
  | nil => rw [ha] at h; exact absurd h (by simp)
  | cons x t => rw [ha] at h; simpa using h

/-- Two strings with different first characters are different. -/
lemma ne_of_head (s t : String) (c1 c2 : Char)
    (h1 : s.data.head? = some c1) (h2 : t.data.head? = some c2)
    (hne : c1 ≠ c2) : s ≠ t := by
  intro he
  rw [he] at h1
  rw [h1] at h2
  exact hne (Option.some.inj h2)

/-- A string with a first character is not empty. -/
lemma ne_empty_of_head (s : String) (c : Char)
    (h : s.data.head? = some c) : s ≠ "" := by
  intro he
  rw [he] at h
  exact absurd h (by simp)

/-- The trace of `get_api_answer` starts with the API call carrying the
given timestamp. -/
lemma get_api_answer_cons (ts : Int) (o : HttpOutcome) :
    ∃ rest, (get_api_answer ts o).1 = Event.apiCall ts :: rest := by
  cases o with
  | exn e => exact ⟨_, rfl⟩
  | reply s b =>
      refine ⟨[], ?_⟩
      unfold get_api_answer
      by_cases hs : s ≠ 200 <;> simp [hs]

/-- Every event of `get_api_answer` is the API call or an error log. -/
lemma get_api_answer_events (ts : Int) (o : HttpOutcome) :
    ∀ e ∈ (get_api_answer ts o).1,
      e = Event.apiCall ts ∨ ∃ m, e = Event.log .error m := by
  cases o with
  | exn s =>
      intro e he
      simp [get_api_answer] at he
      rcases he with h | h
      · exact Or.inl h
      · exact Or.inr ⟨_, h⟩
  | reply s b =>
      intro e he
      unfold get_api_answer at he
      by_cases hs : s ≠ 200 <;> simp [hs] at he <;> exact Or.inl he

/-- Every event of `send_message` is the send attempt or the
success-debug log (whose text starts with `Отправлено`). -/
lemma send_message_events (o : SendOutcome) (m : String) :
    ∀ e ∈ (send_message o m).1,
      e = Event.sendAttempt m ∨
        e = Event.log .debug ("Отправлено сообщение \"" ++ m ++ "\"") := by
  cases o <;> intro e he <;> simp [send_message] at he <;> tauto

/-- The send attempt itself is always in `send_message`'s trace. -/
lemma send_message_mem (o : SendOutcome) (m : String) :
    Event.sendAttempt m ∈ (send_message o m).1 := by
  cases o <;> simp [send_message]

/-- A failing `send_message` raises `MessageSendingError`. -/
lemma send_message_fail (o : SendOutcome) (m : String) (h : o ≠ .ok) :
    ∃ mm, (send_message o m).2 =
      Except.error (PyError.messageSendingError mm) := by
  cases o with
  | ok => exact absurd rfl h
  | apiTelegramException e => exact ⟨_, rfl⟩
  | connectionError e => exact ⟨_, rfl⟩
  | timeout e => exact ⟨_, rfl⟩
  | otherException e => exact ⟨_, rfl⟩

/-- The skip-branch debug log never occurs in `send_message`'s trace:
its only log line starts with `Отправлено`, not `Статус`. -/
lemma send_message_no_skip (o : SendOutcome) (m : String) :
    Event.log .debug "Статус не изменился, сообщение не отправлено" ∉
      (send_message o m).1 := by
  intro hmem
  rcases send_message_events o m _ hmem with h | h
  · cases h
  · have hms := (Event.log.injEq _ _ _ _).mp h.symm
    refine ne_of_head _ _ 'О' 'С' ?_ (by decide) (by decide) hms.2
    exact head_data_append _ _ _ (head_data_append _ _ _ (by decide))

/-- No sleep event occurs in `get_api_answer`'s trace. -/
lemma get_api_answer_no_sleep (ts : Int) (o : HttpOutcome) (n : Nat) :
    Event.sleep n ∉ (get_api_answer ts o).1 := by
  intro hmem
  rcases get_api_answer_events ts o _ hmem with h | ⟨m, h⟩ <;> cases h

/-- No sleep event occurs in `send_message`'s trace. -/
lemma send_message_no_sleep (o : SendOutcome) (m : String) (n : Nat) :
    Event.sleep n ∉ (send_message o m).1 := by
  intro hmem
  rcases send_message_events o m _ hmem with h | h <;> cases h

/-- No API-call event occurs in `send_message`'s trace. -/
lemma send_message_no_api (o : SendOutcome) (m : String) (t : Int) :
    Event.apiCall t ∉ (send_message o m).1 := by
  intro hmem
  rcases send_message_events o m _ hmem with h | h <;> cases h

/-- Any API-call event in `get_api_answer`'s trace carries the requested
timestamp. -/
lemma get_api_answer_api (ts : Int) (o : HttpOutcome) (t : Int)
    (hmem : Event.apiCall t ∈ (get_api_answer ts o).1) : t = ts := by
  rcases get_api_answer_events ts o _ hmem with h | ⟨m, h⟩ <;> cases h
  rfl

/-- Trichotomy on one `try` block: it raises (summary never computed,
trace is just the API call's), or it computed a summary equal to
`last_status` and took the skip branch, or it computed a different
summary and attempted the primary send (state unchanged either way). -/
lemma cycle_body_shape (env : CycleEnv) (st : LoopState) :
    ((cycle_body env st).1 = (get_api_answer st.timestamp env.api).1 ∧
       (∃ e, (cycle_body env st).2 = Except.error e) ∧
       computed_summary env st = Option.none) ∨
    (∃ s, computed_summary env st = some s ∧ s = st.last_status ∧
       cycle_body env st =
         ((get_api_answer st.timestamp env.api).1 ++
            [Event.log .debug
              "Статус не изменился, сообщение не отправлено"],
          Except.ok st)) ∨
    (∃ s, computed_summary env st = some s ∧ s ≠ st.last_status ∧
       cycle_body env st =
         ((get_api_answer st.timestamp env.api).1 ++
            (send_message env.primarySend s).1,
          Except.map (fun _ => st) (send_message env.primarySend s).2)) := by
  cases hga : (get_api_answer st.timestamp env.api).2 with
  | error e =>
      refine Or.inl ⟨?_, ⟨e, ?_⟩, ?_⟩ <;>
        simp [cycle_body, computed_summary, hga]
  | ok response =>
      cases hcr : check_response response with
      | error e =>
          refine Or.inl ⟨?_, ⟨e, ?_⟩, ?_⟩ <;>
            simp [cycle_body, computed_summary, hga, hcr]
      | ok u =>
          cases hgm : pyGetMethod response "homeworks" with
          | error e =>
              refine Or.inl ⟨?_, ⟨e, ?_⟩, ?_⟩ <;>
                simp [cycle_body, computed_summary, hga, hcr, hgm]
          | ok hwval =>
              cases hpi : pyIndex hwval 0 with
              | error e =>
                  refine Or.inl ⟨?_, ⟨e, ?_⟩, ?_⟩ <;>
                    simp [cycle_body, computed_summary, hga, hcr, hgm, hpi]
              | ok homework =>
                  cases hps : parse_status homework with
                  | error e =>
                      refine Or.inl ⟨?_, ⟨e, ?_⟩, ?_⟩ <;>
                        simp [cycle_body, computed_summary,
                          hga, hcr, hgm, hpi, hps]
                  | ok status =>
                      by_cases hif : status = st.last_status
                      · refine Or.inr (Or.inl ⟨status, ?_, hif, ?_⟩) <;>
                          simp [cycle_body, computed_summary,
                            hga, hcr, hgm, hpi, hps, hif]
                      · refine Or.inr (Or.inr ⟨status, ?_, hif, ?_⟩) <;>
                          cases hsm :
                            (send_message env.primarySend status).2 <;>
                          simp [cycle_body, computed_summary, Except.map,
                            hga, hcr, hgm, hpi, hps, hif, hsm]

/-- The `try` block never changes the loop state. -/
lemma cycle_body_state (env : CycleEnv) (st st' : LoopState)
    (h : (cycle_body env st).2 = Except.ok st') : st' = st := by
  rcases cycle_body_shape env st with ⟨_, ⟨e, he⟩, _⟩ |
    ⟨s, _, _, hcb⟩ | ⟨s, _, _, hcb⟩
  · rw [he] at h; cases h
  · rw [hcb] at h; simp at h; exact h.symm
  · rw [hcb] at h
    cases hsm : (send_message env.primarySend s).2 with
    | error e => rw [hsm] at h; simp [Except.map] at h
    | ok v => rw [hsm] at h; simp [Except.map] at h; exact h.symm

/-- A full iteration never changes the loop state when it completes. -/
lemma run_cycle_state (env : CycleEnv) (st st' : LoopState)
    (h : (run_cycle env st).2 = Except.ok st') : st' = st := by
  cases hcb : (cycle_body env st).2 with
  | ok st1 =>
      simp [run_cycle, hcb] at h
      rw [← h]
      exact cycle_body_state env st st1 hcb
  | error e =>
      cases hsm : (send_message env.diagSend
          ("Сбой в работе программы: " ++ pyErrStr e)).2 with
      | ok v => simp [run_cycle, hcb, hsm] at h; exact h.symm
      | error e2 => simp [run_cycle, hcb, hsm] at h

/-- The trace of a full iteration: the `try` block's events, then (when
it raised) the error log and the diagnostic send's events, then in
every case the single sleep. -/
lemma run_cycle_trace (env : CycleEnv) (st : LoopState) :
    (run_cycle env st).1 =
      (cycle_body env st).1 ++ [Event.sleep RETRY_PERIOD] ∨
    ∃ e, (cycle_body env st).2 = Except.error e ∧
      (run_cycle env st).1 =
        (cycle_body env st).1 ++
          [Event.log .error ("Сбой в работе программы: " ++ pyErrStr e)] ++
          (send_message env.diagSend
            ("Сбой в работе программы: " ++ pyErrStr e)).1 ++
          [Event.sleep RETRY_PERIOD] := by
  cases hcb : (cycle_body env st).2 with
  | ok st1 => left; simp [run_cycle, hcb]
  | error e =>
      refine Or.inr ⟨e, rfl, ?_⟩
      cases hsm : (send_message env.diagSend
          ("Сбой в работе программы: " ++ pyErrStr e)).2 <;>
        simp [run_cycle, hcb, hsm]

/-- A successful `parse_status` result is never the empty string: it
starts with the fixed template prefix. -/
lemma parse_status_ne_empty (hw : PyVal) (s : String)
    (h : parse_status hw = Except.ok s) : s ≠ "" := by
  cases hgn : pyGetMethod hw "homework_name" with
  | error e => simp [parse_status, hgn] at h
  | ok name =>
      by_cases hn : name.isNone
      · simp [parse_status, hgn, hn] at h
      · cases hgs : pyGetMethod hw "status" with
        | error e => simp [parse_status, hgn, hn, hgs] at h
        | ok sv =>
            cases hv : verdictOf sv with
            | none => simp [parse_status, hgn, hn, hgs, hv] at h
            | some verdict =>
                simp [parse_status, hgn, hn, hgs, hv] at h
                have hh : ((("Изменился статус проверки работы \"" ++
                    pyStr name) ++ "\". ") ++ verdict).data.head? =
                      some 'И' :=
                  head_data_append _ _ _ (head_data_append _ _ _
                    (head_data_append _ _ _ (by decide)))
                rw [← h]
                exact ne_empty_of_head _ _ hh

/-- A computed summary comes from a successful `parse_status`. -/
lemma computed_summary_parse (env : CycleEnv) (st : LoopState) (s : String)
    (h : computed_summary env st = some s) :
    ∃ hw, parse_status hw = Except.ok s := by
  cases hga : (get_api_answer st.timestamp env.api).2 with
  | error e => simp [computed_summary, hga] at h
  | ok response =>
      cases hcr : check_response response with
      | error e => simp [computed_summary, hga, hcr] at h
      | ok u =>
          cases hgm : pyGetMethod response "homeworks" with
          | error e => simp [computed_summary, hga, hcr, hgm] at h
          | ok hwval =>
              cases hpi : pyIndex hwval 0 with
              | error e => simp [computed_summary, hga, hcr, hgm, hpi] at h
              | ok homework =>
                  cases hps : parse_status homework with
                  | error e =>
                      simp [computed_summary, hga, hcr, hgm, hpi, hps] at h
                  | ok status =>
                      simp [computed_summary, hga, hcr, hgm, hpi, hps] at h
                      exact ⟨homework, by rw [hps, h]⟩

/-- `get_api_answer` never emits a debug-level log. -/
lemma get_api_answer_no_debug (ts : Int) (o : HttpOutcome) (m : String) :
    Event.log .debug m ∉ (get_api_answer ts o).1 := by
  intro hmem
  rcases get_api_answer_events ts o _ hmem with h | ⟨mm, h⟩ <;> simp at h

/-- `cycle_body` never emits a sleep event. -/
lemma cycle_body_no_sleep (env : CycleEnv) (st : LoopState) (n : Nat) :
    Event.sleep n ∉ (cycle_body env st).1 := by
  rcases cycle_body_shape env st with ⟨htr, _, _⟩ |
    ⟨s, _, _, hcb⟩ | ⟨s, _, _, hcb⟩
  · rw [htr]; exact get_api_answer_no_sleep _ _ _
  · rw [hcb]
    intro hmem
    simp at hmem
    exact get_api_answer_no_sleep _ _ _ hmem
  · rw [hcb]
    intro hmem
    simp at hmem
    rcases hmem with h | h
    · exact get_api_answer_no_sleep _ _ _ h
    · exact send_message_no_sleep _ _ _ h

/-- Every API-call event in `cycle_body`'s trace carries the loop's
timestamp. -/
lemma cycle_body_api (env : CycleEnv) (st : LoopState) (t : Int)
    (h : Event.apiCall t ∈ (cycle_body env st).1) : t = st.timestamp := by
  rcases cycle_body_shape env st with ⟨htr, _, _⟩ |
    ⟨s, _, _, hcb⟩ | ⟨s, _, _, hcb⟩
  · rw [htr] at h; exact get_api_answer_api _ _ _ h
  · rw [hcb] at h
    simp at h
    exact get_api_answer_api _ _ _ h
  · rw [hcb] at h
    simp at h
    rcases h with h | h
    · exact get_api_answer_api _ _ _ h
    · exact absurd h (send_message_no_api _ _ _)

/-- `cycle_body`'s trace starts with the API call. -/
lemma cycle_body_cons (env : CycleEnv) (st : LoopState) :
    ∃ rest, (cycle_body env st).1 =
      Event.apiCall st.timestamp :: rest := by
  obtain ⟨r0, hga⟩ := get_api_answer_cons st.timestamp env.api
  rcases cycle_body_shape env st with ⟨htr, _, _⟩ |
    ⟨s, _, _, hcb⟩ | ⟨s, _, _, hcb⟩
  · exact ⟨r0, by rw [htr, hga]⟩
  · refine ⟨r0 ++ [Event.log .debug
      "Статус не изменился, сообщение не отправлено"], ?_⟩
    rw [hcb]
    simp [hga]
  · refine ⟨r0 ++ (send_message env.primarySend s).1, ?_⟩
    rw [hcb]
    simp [hga]

/-- Every API-call event in a full iteration's trace carries the loop's
timestamp. -/
lemma run_cycle_api (env : CycleEnv) (st : LoopState) (t : Int)
    (h : Event.apiCall t ∈ (run_cycle env st).1) : t = st.timestamp := by
  rcases run_cycle_trace env st with htr | ⟨e, he, htr⟩ <;> rw [htr] at h <;>
    simp at h
  · exact cycle_body_api _ _ _ h
  · rcases h with h | h
    · exact cycle_body_api _ _ _ h
    · exact absurd h (send_message_no_api _ _ _)

/-- `.get` on a dict never raises and returns the stored value or
`None`. -/
lemma pyGetMethod_dict (entries : List (String × PyVal)) (k : String) :
    pyGetMethod (PyVal.dict entries) k =
      Except.ok ((dictLookup entries k).getD PyVal.none) := by
  cases h : dictLookup entries k <;> simp [pyGetMethod, h]

/-- Explicit form of a full iteration whose `try` block raised `e`. -/
lemma run_cycle_of_err (env : CycleEnv) (st : LoopState) (e : PyError)
    (h : (cycle_body env st).2 = Except.error e) :
    run_cycle env st =
      ((cycle_body env st).1 ++
         [Event.log .error ("Сбой в работе программы: " ++ pyErrStr e)] ++
         (send_message env.diagSend
           ("Сбой в работе программы: " ++ pyErrStr e)).1 ++
         [Event.sleep RETRY_PERIOD],
       match (send_message env.diagSend
           ("Сбой в работе программы: " ++ pyErrStr e)).2 with
       | .ok _ => Except.ok st
       | .error e2 => Except.error e2) := by
  cases hsm : (send_message env.diagSend
      ("Сбой в работе программы: " ++ pyErrStr e)).2 <;>
    simp [run_cycle, h, hsm]

/-- Explicit form of a full iteration whose `try` block completed. -/
lemma run_cycle_of_ok (env : CycleEnv) (st st1 : LoopState)
    (h : (cycle_body env st).2 = Except.ok st1) :
    run_cycle env st =
      ((cycle_body env st).1 ++ [Event.sleep RETRY_PERIOD],
       Except.ok st1) := by
  simp [run_cycle, h]

/-- While `last_status` is the initial empty string, the skip branch's
debug log is never emitted: any computed summary is non-empty, so the
send branch is always taken. -/
lemma run_cycle_no_skip (env : CycleEnv) (st : LoopState)
    (h : st.last_status = "") :
    Event.log .debug "Статус не изменился, сообщение не отправлено" ∉
      (run_cycle env st).1 := by
  have hcb : Event.log .debug
      "Статус не изменился, сообщение не отправлено" ∉
        (cycle_body env st).1 := by
    rcases cycle_body_shape env st with ⟨htr, _, _⟩ |
      ⟨s, hs, heq, hc⟩ | ⟨s, hs, hne, hc⟩
    · rw [htr]; exact get_api_answer_no_debug _ _ _
    · obtain ⟨hw, hps⟩ := computed_summary_parse env st s hs
      exact absurd (heq.trans h) (parse_status_ne_empty hw s hps)
    · rw [hc]
      intro hmem
      simp at hmem
      rcases hmem with h2 | h2
      · exact get_api_answer_no_debug _ _ _ h2
      · exact send_message_no_skip _ _ h2
  intro hmem
  rcases run_cycle_trace env st with htr | ⟨e, he, htr⟩ <;>
    rw [htr] at hmem <;> simp at hmem
  · exact hcb hmem
  · rcases hmem with h2 | h2
    · exact hcb h2
    · exact send_message_no_skip _ _ h2

/-- When the computed summary differs from `last_status`, the cycle
attempts to send it, and the `try` block's outcome is exactly the
send's outcome (with the unchanged state on success). -/
lemma run_cycle_notify (env : CycleEnv) (st : LoopState) (s : String)
    (hs : computed_summary env st = some s) (hne : s ≠ st.last_status) :
    Event.sendAttempt s ∈ (run_cycle env st).1 ∧
    (cycle_body env st).2 =
      Except.map (fun _ => st) (send_message env.primarySend s).2 := by
  rcases cycle_body_shape env st with ⟨_, _, hnone⟩ |
    ⟨s1, hs1, heq, hcb⟩ | ⟨s1, hs1, hne1, hcb⟩
  · rw [hnone] at hs; cases hs
  · rw [hs1] at hs
    have he : s1 = s := Option.some.inj hs
    rw [he] at heq
    exact absurd heq hne
  · rw [hs1] at hs
    have he : s1 = s := Option.some.inj hs
    rw [he] at hcb
    constructor
    · have hmem : Event.sendAttempt s ∈ (cycle_body env st).1 := by
        rw [hcb]
        exact List.mem_append.mpr (Or.inr (send_message_mem _ _))
      rcases run_cycle_trace env st with htr | ⟨e, _, htr⟩ <;> rw [htr]
      · exact List.mem_append.mpr (Or.inl hmem)
      · exact List.mem_append.mpr (Or.inl (List.mem_append.mpr
          (Or.inl (List.mem_append.mpr (Or.inl hmem)))))
    · rw [hcb]

/-- Every API call anywhere in a run of the loop carries the timestamp
of the state the run started from. -/
lemma run_loop_api (envs : List CycleEnv) (st : LoopState) (t : Int)
    (h : Event.apiCall t ∈ (run_loop envs st).1) : t = st.timestamp := by
  induction envs generalizing st with
  | nil => simp [run_loop] at h
  | cons env rest ih =>
      cases hrc : (run_cycle env st).2 with
      | ok st1 =>
          simp [run_loop, hrc] at h
          rcases h with h | h
          · exact run_cycle_api env st t h
          · have ht := ih st1 h
            have hst : st1 = st := run_cycle_state env st st1 hrc
            rw [hst] at ht
            exact ht
      | error e =>
          simp [run_loop, hrc] at h
          exact run_cycle_api env st t h

/-! Claim theorems. -/

/-- Claim C1 (code behavior at the failing input): `main` never assigns
`last_status`, so two consecutive cycles producing the identical
StatusSummary — the first one's notification succeeding — send TWO
notifications, not one: the claimed update of LastNotifiedSummary on
notify success does not happen in the code. -/
theorem duplicate_status_resent :
    (run_loop [envOk, envOk] st0).1.count (Event.sendAttempt summaryX) = 2 ∧
    (run_loop [envOk, envOk] st0).2 = Option.none :=
  ⟨rfl, rfl⟩

/-- Claim C2 (counterexample): a cycle whose response lacks `homeworks`
and whose diagnostic send then fails does NOT swallow the secondary
failure — the `MessageSendingError` escapes `run_cycle` and terminates
the loop: the second cycle's API call never happens (only one API call
in the whole run). -/
theorem diag_send_failure_crashes :
    (run_cycle envDiagFail st0).2 =
      Except.error (PyError.messageSendingError
        "Ошибка сети: проверьте подключение к интернету.") ∧
    (run_loop [envDiagFail, envOk] st0).2 =
      some (PyError.messageSendingError
        "Ошибка сети: проверьте подключение к интернету.") ∧
    (run_loop [envDiagFail, envOk] st0).1.count (Event.apiCall 0) = 1 :=
  ⟨rfl, rfl, rfl⟩

/-- Claim C2 (amended): every error raised inside a cycle is caught by
the outer handler, which logs a diagnostic including the error text and
attempts to send it through the same notifier; but the diagnostic send
is unguarded — if it succeeds the loop continues with unchanged state,
and if it fails the resulting error is re-raised out of the cycle,
terminating the loop. -/
theorem outer_handler_best_effort (env : CycleEnv) (st : LoopState)
    (e : PyError) (h : (cycle_body env st).2 = Except.error e) :
    Event.log .error ("Сбой в работе программы: " ++ pyErrStr e) ∈
      (run_cycle env st).1 ∧
    Event.sendAttempt ("Сбой в работе программы: " ++ pyErrStr e) ∈
      (run_cycle env st).1 ∧
    ((send_message env.diagSend
        ("Сбой в работе программы: " ++ pyErrStr e)).2 = Except.ok () →
      (run_cycle env st).2 = Except.ok st) ∧
    (∀ e2, (send_message env.diagSend
        ("Сбой в работе программы: " ++ pyErrStr e)).2 =
          Except.error e2 →
      (run_cycle env st).2 = Except.error e2) := by
  have hrc := run_cycle_of_err env st e h
  refine ⟨?_, ?_, ?_, ?_⟩
  · rw [hrc]; simp
  · rw [hrc]; simp [send_message_mem]
  · intro hsm; rw [hrc]; simp [hsm]
  · intro e2 hsm; rw [hrc]; simp [hsm]

/-- Claim C2 (witness for the amended theorem) at the concrete failing
cycle `envDiagFail`. -/
theorem outer_handler_best_effort_witness :
    Event.sendAttempt ("Сбой в работе программы: " ++
        pyErrStr (PyError.responseError
          "В ответе от Yandex API нет записей о ДЗ")) ∈
      (run_cycle envDiagFail st0).1 ∧
    (run_cycle envDiagFail st0).2 =
      Except.error (PyError.messageSendingError
        "Ошибка сети: проверьте подключение к интернету.") :=
  ⟨(outer_handler_best_effort envDiagFail st0 _ rfl).2.1,
   (outer_handler_best_effort envDiagFail st0 _ rfl).2.2.2 _ rfl⟩

/-- Claim C3: `last_status` keeps its initial empty-string value across
every completed cycle; since every successful `parse_status` returns a
non-empty string, any computed summary differs from it, the skip
branch's low-severity log is never emitted, and a send is attempted in
every cycle that computes a summary. -/
theorem last_status_never_updated (env : CycleEnv) (st : LoopState)
    (h : st.last_status = "") :
    (∀ st1, (run_cycle env st).2 = Except.ok st1 →
       st1.last_status = "") ∧
    Event.log .debug "Статус не изменился, сообщение не отправлено" ∉
      (run_cycle env st).1 ∧
    (∀ s, computed_summary env st = some s →
       Event.sendAttempt s ∈ (run_cycle env st).1) ∧
    (∀ hw s, parse_status hw = Except.ok s → s ≠ "") := by
  refine ⟨?_, run_cycle_no_skip env st h, ?_, parse_status_ne_empty⟩
  · intro st1 h2
    rw [run_cycle_state env st st1 h2]
    exact h
  · intro s hs
    obtain ⟨hw, hps⟩ := computed_summary_parse env st s hs
    have hne : s ≠ st.last_status := by
      rw [h]
      exact parse_status_ne_empty hw s hps
    exact (run_cycle_notify env st s hs hne).1

/-- Claim C3 (witness) at the all-success cycle `envOk`. -/
theorem last_status_never_updated_witness :
    st0.last_status = "" ∧
    Event.sendAttempt summaryX ∈ (run_cycle envOk st0).1 :=
  ⟨rfl, (last_status_never_updated envOk st0 rfl).2.2.1 summaryX rfl⟩

/-- Claim C4 (counterexample): for `{"homeworks": 42}` — `homeworks`
present but not a sequence, `current_date` absent — the claim predicts
the sequence-type `TypeError`-kind failure (homeworks checks before the
`current_date` check), but the code raises the `current_date`
`ResponseError` and no `TypeError` at all. -/
theorem check_response_order_counterexample :
    check_response (PyVal.dict [("homeworks", PyVal.int 42)]) =
      Except.error (PyError.responseError
        "В ответе от Yandex API нет записи о текущей дате") ∧
    (∀ m, check_response (PyVal.dict [("homeworks", PyVal.int 42)]) ≠
      Except.error (PyError.typeError m)) := by
  refine ⟨rfl, ?_⟩
  intro m h
  have he : check_response (PyVal.dict [("homeworks", PyVal.int 42)]) =
      Except.error (PyError.responseError
        "В ответе от Yandex API нет записи о текущей дате") := rfl
  rw [he] at h
  exact PyError.noConfusion (Except.error.inj h)

/-- Claim C4 (amended): the validator's checks run in the code's order
— mapping type, `homeworks` absence, `current_date` absence,
`homeworks` sequence type, `homeworks` emptiness — with the claimed
error kind and message for each failure, and success otherwise. -/
theorem check_response_spec (response : PyVal) :
    (response.isDict = false →
      check_response response = Except.error (PyError.typeError
        ("Ответ от Yandex API не словарь, а " ++ typeName response))) ∧
    (∀ entries, response = PyVal.dict entries →
      (((dictLookup entries "homeworks").getD PyVal.none).isNone = true →
        check_response response = Except.error (PyError.responseError
          "В ответе от Yandex API нет записей о ДЗ")) ∧
      (((dictLookup entries "homeworks").getD PyVal.none).isNone = false →
       ((dictLookup entries "current_date").getD PyVal.none).isNone =
          true →
        check_response response = Except.error (PyError.responseError
          "В ответе от Yandex API нет записи о текущей дате")) ∧
      (((dictLookup entries "homeworks").getD PyVal.none).isNone = false →
       ((dictLookup entries "current_date").getD PyVal.none).isNone =
          false →
       ((dictLookup entries "homeworks").getD PyVal.none).isList =
          false →
        check_response response = Except.error (PyError.typeError
          "В ответе от Yandex API записи о ДЗ не приведены к списку")) ∧
      (∀ xs, (dictLookup entries "homeworks").getD PyVal.none =
          PyVal.list xs →
       ((dictLookup entries "current_date").getD PyVal.none).isNone =
          false →
        ((xs.length < 1 →
           check_response response = Except.error (PyError.responseError
             "В ответе от Yandex API список с записями о ДЗ пуст")) ∧
         (¬ xs.length < 1 →
           check_response response = Except.ok ())))) := by
  constructor
  · intro hd
    cases response with
    | dict entries => simp [PyVal.isDict] at hd
    | none => rfl
    | str s => rfl
    | int n => rfl
    | list xs => rfl
  · intro entries hre
    subst hre
    refine ⟨?_, ?_, ?_, ?_⟩
    · intro h1
      simp [check_response, h1]
    · intro h1 h2
      simp [check_response, h1, h2]
    · intro h1 h2 h3
      simp only [check_response, h1, h2, Bool.false_eq_true,
        if_false, if_neg]
      cases hh : (dictLookup entries "homeworks").getD PyVal.none <;>
        simp_all [PyVal.isList, PyVal.isNone]
    · intro xs hxs h2
      constructor
      · intro hlen
        simp [check_response, hxs, h2, hlen]
        rfl
      · intro hlen
        simp [check_response, hxs, h2, hlen]
        rfl

/-- Claim C4 (witness for the amended theorem): the dict
`{"homeworks": 42}` takes the `current_date`-absence branch. -/
theorem check_response_spec_witness :
    check_response (PyVal.dict [("homeworks", PyVal.int 42)]) =
      Except.error (PyError.responseError
        "В ответе от Yandex API нет записи о текущей дате") :=
  (((check_response_spec (PyVal.dict [("homeworks", PyVal.int 42)])).2
    [("homeworks", PyVal.int 42)] rfl).2.1) rfl rfl

/-- Claim C5: on a transport failure `get_api_answer` logs the error
text and then hits the status-code check with `response` unbound (an
`UnboundLocalError`, not a normal return and not any dedicated network
error — `PyError` has no such kind); on a non-200 reply it raises
`ResponseError` naming the code; on a 200 reply it returns the decoded
body. -/
theorem get_api_answer_spec (ts : Int) (e : String) (s : Nat)
    (b : PyVal) :
    ((get_api_answer ts (.exn e)).2 =
        Except.error (PyError.unboundLocalError "response") ∧
      Event.log .error ("Ошибка отправки запроса: " ++ e) ∈
        (get_api_answer ts (.exn e)).1) ∧
    (s ≠ 200 → (get_api_answer ts (.reply s b)).2 =
        Except.error (PyError.responseError
          ("Получен ответ со статусом " ++ toString s))) ∧
    (get_api_answer ts (.reply 200 b)).2 = Except.ok b := by
  refine ⟨⟨rfl, ?_⟩, ?_, by simp [get_api_answer]⟩
  · simp [get_api_answer]
  · intro hs
    simp [get_api_answer, hs]

/-- Claim C5 (witness) at a 404 reply. -/
theorem get_api_answer_spec_witness :
    (404 : Nat) ≠ 200 ∧
    (get_api_answer 0 (.reply 404 PyVal.none)).2 =
      Except.error (PyError.responseError
        ("Получен ответ со статусом " ++ toString (404 : Nat))) :=
  ⟨by decide, (get_api_answer_spec 0 "boom" 404 PyVal.none).2.1
    (by decide)⟩

/-- Claim C6 (counterexample): with all three credentials present the
loop starts, but the startup check is NOT the only terminating path —
a cycle whose HTTP request raises and whose diagnostic send then fails
ends the run with an escaped `MessageSendingError`. -/
theorem loop_crash_terminates_process :
    main_start fullEnv 7 =
      MainStart.loopEntered { timestamp := 7, last_status := "" } ∧
    (run_loop [envCrash] { timestamp := 7, last_status := "" }).2 =
      some (PyError.messageSendingError
        "Превышено время ожидания ответа от сервера.") :=
  ⟨rfl, rfl⟩

/-- Claim C6 (amended): if any of the three credentials is missing or
empty, `main` logs one critical line and exits with status 1 before the
loop — in particular before any API call or send attempt, since the
emitted event list is exactly that log line; if all three are truthy
the loop is entered with the initial state. (The startup check is not
the only terminating path; see the counterexample.) -/
theorem startup_token_gate (env : Env) (now : Int) :
    ((truthy env.PRACTICUM_TOKEN && truthy env.TELEGRAM_TOKEN &&
        truthy env.TELEGRAM_CHAT_ID) = false →
      main_start env now =
        MainStart.exited 1
          [Event.log .critical "Отсутствует обязательный токен"]) ∧
    ((truthy env.PRACTICUM_TOKEN && truthy env.TELEGRAM_TOKEN &&
        truthy env.TELEGRAM_CHAT_ID) = true →
      main_start env now =
        MainStart.loopEntered { timestamp := now, last_status := "" }) := by
  constructor <;> intro hc <;> simp [main_start, check_tokens, hc]

/-- Claim C6 (witness) at a credential set with an empty token. -/
theorem startup_token_gate_witness :
    (truthy noTokenEnv.PRACTICUM_TOKEN && truthy noTokenEnv.TELEGRAM_TOKEN
      && truthy noTokenEnv.TELEGRAM_CHAT_ID) = false ∧
    main_start noTokenEnv 5 =
      MainStart.exited 1
        [Event.log .critical "Отсутствует обязательный токен"] :=
  ⟨rfl, (startup_token_gate noTokenEnv 5).1 rfl⟩

/-- Claim C7: `parse_status` on a record with a null/absent name raises
`ResponseError`; with a status absent from the verdict table it raises
`ResponseError`; otherwise it returns exactly the template applied to
the name and the looked-up verdict. -/
theorem parse_status_spec (entries : List (String × PyVal)) :
    (((dictLookup entries "homework_name").getD PyVal.none).isNone =
        true →
      parse_status (PyVal.dict entries) =
        Except.error (PyError.responseError
          "В ответе API нет ключа homework_name")) ∧
    (((dictLookup entries "homework_name").getD PyVal.none).isNone =
        false →
      (verdictOf ((dictLookup entries "status").getD PyVal.none) =
          Option.none →
        parse_status (PyVal.dict entries) =
          Except.error (PyError.responseError
            "Неожиданный статус домашней работы")) ∧
      (∀ v, verdictOf ((dictLookup entries "status").getD PyVal.none) =
          some v →
        parse_status (PyVal.dict entries) =
          Except.ok ("Изменился статус проверки работы \"" ++
            pyStr ((dictLookup entries "homework_name").getD PyVal.none)
            ++ "\". " ++ v))) := by
  refine ⟨?_, ?_⟩
  · intro hn
    simp [parse_status, pyGetMethod_dict, hn]
  · intro hn
    refine ⟨?_, ?_⟩
    · intro hv
      simp [parse_status, pyGetMethod_dict, hn, hv]
    · intro v hv
      simp [parse_status, pyGetMethod_dict, hn, hv]

/-- Claim C7 (witness): a record named `X` with status `approved`
renders the concrete summary. -/
theorem parse_status_spec_witness :
    parse_status (PyVal.dict [("homework_name", PyVal.str "X"),
        ("status", PyVal.str "approved")]) =
      Except.ok summaryX :=
  ((parse_status_spec [("homework_name", PyVal.str "X"),
      ("status", PyVal.str "approved")]).2 (by decide)).2
    "Работа проверена: ревьюеру всё понравилось. Ура!" rfl

/-- Claim C8 (counterexample): for connection errors, `send_message`
raises a fixed message that does NOT carry the original cause text —
two different causes yield the identical error. -/
theorem send_message_fixed_text_drops_cause :
    (send_message (SendOutcome.connectionError "causeA") "msg").2 =
      Except.error (PyError.messageSendingError
        "Ошибка сети: проверьте подключение к интернету.") ∧
    (send_message (SendOutcome.connectionError "causeA") "msg").2 =
      (send_message (SendOutcome.connectionError "causeB") "msg").2 :=
  ⟨rfl, rfl⟩

/-- Claim C8 (amended): a failing primary send raises the normalized
`MessageSendingError` kind (carrying the cause text only for
Telegram-API and unclassified failures), the loop state — hence
`last_status` — is not updated, and the following cycle computing the
same summary attempts to send the same text again. -/
theorem notify_retry_on_failure (env env2 : CycleEnv) (st : LoopState)
    (s : String) (h1 : computed_summary env st = some s)
    (h2 : s ≠ st.last_status) (h3 : env.primarySend ≠ SendOutcome.ok)
    (h4 : computed_summary env2 st = some s) :
    (∃ m, (cycle_body env st).2 =
       Except.error (PyError.messageSendingError m)) ∧
    (∀ st1, (run_cycle env st).2 = Except.ok st1 → st1 = st) ∧
    Event.sendAttempt s ∈ (run_cycle env st).1 ∧
    Event.sendAttempt s ∈ (run_cycle env2 st).1 := by
  obtain ⟨mm, hsm⟩ := send_message_fail env.primarySend s h3
  have hn := run_cycle_notify env st s h1 h2
  refine ⟨⟨mm, ?_⟩, fun st1 hh => run_cycle_state env st st1 hh,
    hn.1, (run_cycle_notify env2 st s h4 h2).1⟩
  rw [hn.2, hsm]
  rfl

/-- Claim C8 (witness): two consecutive `envSendFail` cycles both
attempt the same summary. -/
theorem notify_retry_on_failure_witness :
    (∃ m, (cycle_body envSendFail st0).2 =
       Except.error (PyError.messageSendingError m)) ∧
    Event.sendAttempt summaryX ∈ (run_cycle envSendFail st0).1 :=
  ⟨(notify_retry_on_failure envSendFail envSendFail st0 summaryX rfl
      (by decide) (by decide) rfl).1,
   (notify_retry_on_failure envSendFail envSendFail st0 summaryX rfl
      (by decide) (by decide) rfl).2.2.1⟩

/-- Claim C9: every full iteration's trace contains exactly one sleep
event, it is the fixed `RETRY_PERIOD`, it is the trace's last event,
and the trace's first event is the cycle's API call — so the sleep
falls between any cycle's work and the next cycle's API call, on every
exit path. -/
theorem cycle_cadence (env : CycleEnv) (st : LoopState) :
    ((run_cycle env st).1).count (Event.sleep RETRY_PERIOD) = 1 ∧
    ((run_cycle env st).1).getLast? = some (Event.sleep RETRY_PERIOD) ∧
    ((run_cycle env st).1).head? = some (Event.apiCall st.timestamp) ∧
    (∀ n, Event.sleep n ∈ (run_cycle env st).1 → n = RETRY_PERIOD) := by
  have hc0 : ∀ n, ((cycle_body env st).1).count (Event.sleep n) = 0 :=
    fun n => List.count_eq_zero.mpr (cycle_body_no_sleep env st n)
  obtain ⟨rest, hcons⟩ := cycle_body_cons env st
  rcases run_cycle_trace env st with htr | ⟨e, he, htr⟩
  · refine ⟨?_, ?_, ?_, ?_⟩
    · rw [htr, List.count_append, hc0]
      simp
    · rw [htr]
      exact List.getLast?_concat _
    · rw [htr, hcons]
      simp
    · intro n hmem
      rw [htr] at hmem
      rcases List.mem_append.mp hmem with h2 | h2
      · exact absurd h2 (cycle_body_no_sleep env st n)
      · simpa using h2
  · have hsm0 : ∀ n, ((send_message env.diagSend
        ("Сбой в работе программы: " ++ pyErrStr e)).1).count
          (Event.sleep n) = 0 :=
      fun n => List.count_eq_zero.mpr (send_message_no_sleep _ _ n)
    refine ⟨?_, ?_, ?_, ?_⟩
    · rw [htr, List.count_append, List.count_append, List.count_append,
        hc0, hsm0]
      simp
    · rw [htr]
      exact List.getLast?_concat _
    · rw [htr, hcons]
      simp
    · intro n hmem
      rw [htr] at hmem
      simp at hmem
      rcases hmem with h2 | h2 | h2
      · exact absurd h2 (cycle_body_no_sleep env st n)
      · exact absurd h2 (send_message_no_sleep _ _ n)
      · exact h2

/-- Claim C9 (witness) at the all-success cycle. -/
theorem cycle_cadence_witness :
    ((run_cycle envOk st0).1).count (Event.sleep RETRY_PERIOD) = 1 ∧
    (600 : Nat) = RETRY_PERIOD :=
  ⟨(cycle_cadence envOk st0).1,
   (cycle_cadence envOk st0).2.2.2 600 (by decide)⟩

/-- Claim C10: the poll cursor is fixed — a completed cycle never
changes the stored timestamp, and every API call in any run of the loop
started from `int(time.time())` carries that same initial value. -/
theorem poll_cursor_fixed :
    (∀ env st st1, (run_cycle env st).2 = Except.ok st1 →
       st1.timestamp = st.timestamp) ∧
    (∀ envs now t,
       Event.apiCall t ∈
         (run_loop envs { timestamp := now, last_status := "" }).1 →
       t = now) := by
  constructor
  · intro env st st1 h
    rw [run_cycle_state env st st1 h]
  · intro envs now t h
    exact run_loop_api envs _ t h

/-- Claim C10 (witness) on a one-cycle run from timestamp 5. -/
theorem poll_cursor_fixed_witness :
    Event.apiCall 5 ∈
      (run_loop [envOk] { timestamp := 5, last_status := "" }).1 ∧
    (5 : Int) = 5 :=
  ⟨by decide, poll_cursor_fixed.2 [envOk] 5 5 (by decide)⟩

end HomeworkBot
